import Mathlib

/-!
# Framium usage-metering and plan-enforcement subsystem: a shallow embedding

This file embeds the usage-metering, plan-enforcement and model-routing logic
of the Framium backend (lib/models.ts, lib/db.ts, api/chat.ts) as executable
Lean definitions, and proves or refutes the specified properties.

Modelling conventions:
* JavaScript strings become Lean `String`; `includes`, `startsWith`,
  `split` and length are re-implemented over the character list so that
  every operation is kernel-computable.
* JavaScript numeric arithmetic on the quantities that occur here
  (character counts divided by powers of two, multiplied by 1.5, and the
  small decimal rate table) is exact in binary floating point at these
  magnitudes, so it is embedded as exact rational arithmetic over `ℚ`.
* Database reads are modelled as total functions over an explicit `Db`
  value; the single fallible write (the usage-ledger append) and the three
  provider HTTP calls are modelled by explicit oracle values carried in the
  environment, because those are the only effects whose outcomes the
  handler branches on.
* A thrown JavaScript `Error` becomes `Except.error msg` carrying the
  message string; the single catch-all of the chat handler inspects the
  message exactly as the source does (`message.includes("API Error")`).
-/

namespace Framium

/-! ## JS string primitives -/

/-- Predicate `listStarts s p`: true when `p` is a leading run of `s`
(char-list form of JS `String.prototype.startsWith`). -/
def listStarts : List Char → List Char → Bool
  | _, [] => true
  | [], _ :: _ => false
  | a :: s, b :: p => a == b && listStarts s p

/-- Predicate `listHasSub p s`: true when `p` occurs as a contiguous run inside `s`
(char-list form of JS `String.prototype.includes`). -/
def listHasSub (p : List Char) : List Char → Bool
  | [] => listStarts [] p
  | a :: t => listStarts (a :: t) p || listHasSub p t

/-- JS `s.includes(pat)`. -/
def strIncludes (s pat : String) : Bool := listHasSub pat.data s.data

/-- JS `s.startsWith(pat)`. -/
def strStarts (s pat : String) : Bool := listStarts s.data pat.data

/-- JS `s.split(sep)[0]` for a one-character separator: the characters
before the first occurrence of `sep`. -/
def jsSplitHead (s : String) (sep : Char) : String :=
  String.mk (s.data.takeWhile (fun c => c != sep))

example : strIncludes "claude-3.5-sonnet" "claude" = true := by decide
example : strIncludes "gpt-4o" "claude" = false := by decide
example : jsSplitHead "claude-4.1-opus" '-' = "claude" := by decide

/-! ## Exact ceiling division

The two `Math.ceil` expressions of the source act on quantities of the form
`n / 4` and `(n / 4) * 1.5` for a character count `n`; both are exact in
IEEE double arithmetic at these magnitudes (division by a power of two and
multiplication by 1.5 are exact while `3 * n < 2 ^ 53`), so `Math.ceil` of
them is the exact rational ceiling.  To keep every definition
kernel-computable we embed them as natural ceiling division and prove the
equality with the rational ceiling below. -/

/-- Ceiling division on naturals: `ceilDiv a b = ⌈a / b⌉` for `0 < b`. -/
def ceilDiv (a b : Nat) : Nat := (a + b - 1) / b

theorem ceilDiv_le_iff (a b n : Nat) (hb : 0 < b) : ceilDiv a b ≤ n ↔ a ≤ b * n := by
  have h : ceilDiv a b = a ⌈/⌉ b := rfl
  rw [h, ceilDiv_le_iff_le_smul hb, smul_eq_mul]

/-- The function `ceilDiv` agrees with the rational ceiling of the exact quotient. -/
theorem ceilDiv_eq_natCeil (a b : Nat) (hb : 0 < b) :
    ceilDiv a b = Nat.ceil ((a : ℚ) / (b : ℚ)) := by
  have hbq : (0 : ℚ) < (b : ℚ) := by exact_mod_cast hb
  apply le_antisymm
  · rw [ceilDiv_le_iff a b _ hb]
    have h := Nat.le_ceil ((a : ℚ) / (b : ℚ))
    rw [div_le_iff₀ hbq] at h
    exact_mod_cast h.trans_eq (mul_comm _ _)
  · rw [Nat.ceil_le, div_le_iff₀ hbq]
    have h : a ≤ b * ceilDiv a b := (ceilDiv_le_iff a b _ hb).1 le_rfl
    exact_mod_cast h.trans_eq (mul_comm _ _)

/-- The source expression `Math.ceil((L / 4) * 1.5)` equals `⌈3L/8⌉`. -/
theorem ceilDiv_three_eighths (L : Nat) :
    ceilDiv (3 * L) 8 = Nat.ceil (((L : ℚ) / 4) * 1.5) := by
  rw [ceilDiv_eq_natCeil _ _ (by norm_num)]
  congr 1
  push_cast
  ring

/-! ## Data model (lib/db.ts)

The `users` table row carries the plan column, typed in the source as the
union type BASIC | MAX | BEAST; the `token_usage` table is the append-only
usage ledger.  Timestamps are abstract instants (`Nat`); the start of the
current month is an explicit parameter `monthStart`, standing for
`date_trunc(month, NOW())` of the aggregate query. -/

/-- The closed plan union type of lib/db.ts (`plan: BASIC | MAX | BEAST`). -/
inductive Plan
  | BASIC
  | MAX
  | BEAST
deriving DecidableEq

/-- The string stored in the `plan` column for each tier. -/
def planStr : Plan → String
  | .BASIC => "BASIC"
  | .MAX => "MAX"
  | .BEAST => "BEAST"

/-- A row of the `users` table (the fields the chat path reads). -/
structure UserRec where
  id : String
  plan : Plan
deriving DecidableEq

/-- A row of the `token_usage` ledger table. -/
structure UsageRec where
  userId : String
  model : String
  tokensUsed : Nat
  costUsd : ℚ
  requestType : String
  createdAt : Nat
deriving DecidableEq

/-- The database state visible to the chat path. -/
structure Db where
  users : List UserRec
  ledger : List UsageRec
deriving DecidableEq

/-- lib/db.ts `getUserById`: `SELECT * FROM users WHERE id = $userId`,
returning `rows[0] || null`. -/
def getUserById (db : Db) (userId : String) : Option UserRec :=
  db.users.find? (fun u => u.id == userId)

/-- lib/db.ts `getUserPlan`: `SELECT plan FROM users WHERE id = $userId`,
returning `rows[0]?.plan || "BASIC"`. -/
def getUserPlan (db : Db) (userId : String) : String :=
  match getUserById db userId with
  | some u => planStr u.plan
  | none => "BASIC"

/-- lib/db.ts `getMonthlyTokenUsage`: `SUM(tokens_used)` and `SUM(cost_usd)`
over the ledger rows of the user with `created_at >= date_trunc(month, NOW())`,
with `COALESCE(..., 0)` giving zero sums on an empty selection. -/
def getMonthlyTokenUsage (db : Db) (monthStart : Nat) (userId : String) : Nat × ℚ :=
  let rows := db.ledger.filter
    (fun r => r.userId == userId && decide (monthStart ≤ r.createdAt))
  (rows.foldr (fun r acc => r.tokensUsed + acc) 0,
   rows.foldr (fun r acc => r.costUsd + acc) 0)

/-- The per-plan monthly token limits table inlined in
lib/db.ts `canUserMakeRequest`. -/
def planLimit : Plan → Nat
  | .BASIC => 50000
  | .MAX => 250000
  | .BEAST => 1000000

/-- lib/db.ts `canUserMakeRequest`: re-reads the user (false when absent),
aggregates the current month, and admits iff
`usage.total_tokens + tokensNeeded <= limits[user.plan]`. -/
def canUserMakeRequest (db : Db) (monthStart : Nat) (userId : String)
    (tokensNeeded : Nat) : Bool :=
  match getUserById db userId with
  | none => false
  | some user =>
    let usage := getMonthlyTokenUsage db monthStart userId
    decide (usage.1 + tokensNeeded ≤ planLimit user.plan)

/-- lib/db.ts `logTokenUsage`: `INSERT INTO token_usage (...)`, the single
append to the ledger.  The database assigns `created_at`; here it is the
current instant `now`. -/
def logTokenUsage (db : Db) (now : Nat) (userId model : String)
    (tokensUsed : Nat) (costUsd : ℚ) (requestType : String) : Db :=
  { db with ledger := db.ledger ++ [⟨userId, model, tokensUsed, costUsd, requestType, now⟩] }

/-! ## Model integration layer (lib/models.ts) -/

/-- The normalized provider reply shape of lib/models.ts. -/
structure ModelResponse where
  text : String
  tokenUsage : Nat
  model : String
  cost : ℚ
deriving DecidableEq

/-- lib/models.ts `getMaxTokensForModel`: the static per-model
max-output-tokens table, default 4096.  (JS object lookup with `|| 4096`;
no table value is 0, so the falsy-default collapse is exact.) -/
def getMaxTokensForModel (model : String) : Nat :=
  match model with
  | "gpt-4" => 4096
  | "gpt-4-turbo" => 4096
  | "gpt-4o" => 4096
  | "gpt-4.1" => 8192
  | "gpt-3.5-turbo" => 4096
  | "claude-3-opus-20240229" => 4096
  | "claude-3-sonnet-20240229" => 4096
  | "claude-3-haiku-20240307" => 4096
  | "claude-3.5-sonnet" => 4096
  | "claude-4-sonnet" => 8192
  | "claude-4.1-opus" => 8192
  | "claude-3.7-sonnet" => 8192
  | "gemini-pro" => 2048
  | "gemini-1.5-pro" => 8192
  | "gemini-2.5-pro" => 8192
  | _ => 4096

/-- The keys of the lib/models.ts `costPer1k` rate table. -/
def rateTableKeys : List String :=
  ["gpt-4", "gpt-4-turbo", "gpt-4o", "gpt-4.1", "gpt-3.5-turbo",
   "claude-3-opus-20240229", "claude-3-sonnet-20240229", "claude-3-haiku-20240307",
   "claude-3.5-sonnet", "claude-4-sonnet", "claude-4.1-opus", "claude-3.7-sonnet",
   "gemini-pro", "gemini-1.5-pro", "gemini-2.5-pro"]

/-- lib/models.ts `costPer1k` table with its default:
`costPer1k[model] || 0.01`.  (No table value is 0, so the JS falsy-default
collapse to a plain lookup-with-default is exact.) -/
def costPer1k (model : String) : ℚ :=
  match model with
  | "gpt-4" => 0.03
  | "gpt-4-turbo" => 0.01
  | "gpt-4o" => 0.025
  | "gpt-4.1" => 0.003
  | "gpt-3.5-turbo" => 0.001
  | "claude-3-opus-20240229" => 0.075
  | "claude-3-sonnet-20240229" => 0.015
  | "claude-3-haiku-20240307" => 0.0025
  | "claude-3.5-sonnet" => 0.015
  | "claude-4-sonnet" => 0.03
  | "claude-4.1-opus" => 0.06
  | "claude-3.7-sonnet" => 0.0025
  | "gemini-pro" => 0.005
  | "gemini-1.5-pro" => 0.0025
  | "gemini-2.5-pro" => 0.05
  | _ => 0.01

/-- lib/models.ts `calculateCost`: `(tokens / 1000) * rate`. -/
def calculateCost (model : String) (tokens : Nat) : ℚ :=
  ((tokens : ℚ) / 1000) * costPer1k model

/-- lib/models.ts `getSystemPrompt`.  The prompt text content is abbreviated
here: no verified property inspects it (only the lengths of the user prompt
and of the response text enter token accounting), and the provider argument
is unused in the source as well. -/
def getSystemPrompt (_provider : String) (mode : String) : String :=
  let basePrompt := "You are Framium AI, an intelligent design and development assistant integrated with Framer."
  if mode == "agent" then
    basePrompt ++ " AGENT MODE: autonomous agent mode."
  else
    basePrompt ++ " ASK MODE: detailed responses to user questions."

/-- Outcome of the OpenAI SDK call observed by `callOpenAI`: either the SDK
threw (network or API failure, message attached), or a completion came back
with optional first-choice message content and an optional usage block
carrying `total_tokens`. -/
inductive OpenAiHttp
  | netError (msg : String)
  | ok (content : Option String) (totalTokens : Option Nat)
deriving DecidableEq

/-- Outcome of the Anthropic SDK call observed by `callClaude`: either the
SDK threw, or a message came back whose first content block is a text block
(`some text`) or not (`none`), with exact input and output token usage. -/
inductive ClaudeHttp
  | netError (msg : String)
  | ok (text : Option String) (inputTokens outputTokens : Nat)
deriving DecidableEq

/-- Outcome of the `fetch` to the Gemini REST endpoint observed by
`callGemini`: either fetch itself threw, or an HTTP response arrived with
`ok`/`status`/`statusText` and the optional first-candidate text
(`data.candidates?.[0]?.content?.parts?.[0]?.text`).  Gemini reports no
usable token usage on this path. -/
inductive GeminiHttp
  | netError (msg : String)
  | resp (ok : Bool) (status : Nat) (statusText : String) (candidateText : Option String)
deriving DecidableEq

/-- lib/models.ts `callOpenAI`.  Success normalizes
`{text := content || "", tokenUsage := usage?.total_tokens || 0}` and prices
it; failure is rethrown as `OpenAI API Error: <message>`. -/
def callOpenAI (model _prompt _mode : String) (o : OpenAiHttp) : Except String ModelResponse :=
  match o with
  | .netError msg => .error ("OpenAI API Error: " ++ msg)
  | .ok content totalTokens =>
    let responseText := content.getD ""
    let tokens := totalTokens.getD 0
    .ok { text := responseText, tokenUsage := tokens, model := model,
          cost := calculateCost model tokens }

/-- lib/models.ts `callClaude`.  Success normalizes the first text block and
`input_tokens + output_tokens`; failure is rethrown as
`Claude API Error: <message>`. -/
def callClaude (model _prompt _mode : String) (o : ClaudeHttp) : Except String ModelResponse :=
  match o with
  | .netError msg => .error ("Claude API Error: " ++ msg)
  | .ok text inputTokens outputTokens =>
    let responseText := text.getD ""
    let tokenUsage := inputTokens + outputTokens
    .ok { text := responseText, tokenUsage := tokenUsage, model := model,
          cost := calculateCost model tokenUsage }

/-- lib/models.ts `callGemini`.  A non-ok HTTP status throws inside the try
block and is rewrapped by the catch (hence the doubled message); success
takes the first candidate text or "" and, because Gemini does not report
exact consumed tokens here, estimates
`Math.ceil((prompt.length + responseText.length) / 4)`.  The full prompt
sent upstream is the system prompt joined with the user prompt, but the
token estimate is computed from the user prompt length alone, as in the
source. -/
def callGemini (model prompt mode : String) (o : GeminiHttp) : Except String ModelResponse :=
  let systemPrompt := getSystemPrompt "google" mode
  let _fullPrompt := systemPrompt ++ "\n\nUser: " ++ prompt
  match o with
  | .netError msg => .error ("Gemini API Error: " ++ msg)
  | .resp ok status statusText candidateText =>
    if !ok then
      .error ("Gemini API Error: " ++
        ("Gemini API Error: " ++ toString status ++ " " ++ statusText))
    else
      let responseText := candidateText.getD ""
      let estimatedTokens := ceilDiv (prompt.length + responseText.length) 4
      .ok { text := responseText, tokenUsage := estimatedTokens, model := model,
            cost := calculateCost model estimatedTokens }

example :
    callGemini "gemini-pro" "hi" "ask" (.resp true 200 "OK" (some "hello")) =
      Except.ok { text := "hello", tokenUsage := 2, model := "gemini-pro",
                  cost := calculateCost "gemini-pro" 2 } := rfl

/-- lib/models.ts `isModelAllowed` rules table: plan tier name to allowed
model list (`rules[plan]`, which is undefined for an unknown tier). -/
def planRules (plan : String) : Option (List String) :=
  match plan with
  | "BASIC" => some
      ["gpt-4.1",
       "claude-3.7-sonnet",
       "claude-3-haiku-20240307",
       "gpt-3.5-turbo"]
  | "MAX" => some
      ["gpt-4.1",
       "gpt-4o",
       "gpt-4-turbo",
       "claude-3.7-sonnet",
       "claude-3.5-sonnet",
       "claude-4-sonnet",
       "claude-3-sonnet-20240229",
       "gemini-pro",
       "gemini-1.5-pro"]
  | "BEAST" => some
      ["gpt-4.1",
       "gpt-4o",
       "gpt-4-turbo",
       "gpt-4",
       "claude-3.7-sonnet",
       "claude-3.5-sonnet",
       "claude-4-sonnet",
       "claude-4.1-opus",
       "claude-3-opus-20240229",
       "claude-3-sonnet-20240229",
       "gemini-pro",
       "gemini-1.5-pro",
       "gemini-2.5-pro"]
  | _ => none

/-- lib/models.ts `isModelAllowed`: `rules[plan]?.includes(model) || false`. -/
def isModelAllowed (plan model : String) : Bool :=
  match planRules plan with
  | some models => models.contains model
  | none => false

/-- The normalized request shape handed to lib/models.ts
`routeModelRequest`.  The handler spreads the body context together with
`mode`, `userId` and `userPlan` into the request context; of those fields
the adapters read only `context?.mode`, which is carried here directly. -/
structure ModelRequest where
  model : String
  prompt : String
  mode : String
deriving DecidableEq

/-- Provider families of the three adapters. -/
inductive ProviderTag
  | openai
  | anthropic
  | gemini
deriving DecidableEq

/-- Observable side effects of one chat request: an outbound provider call,
or an append of one row to the usage ledger. -/
inductive Ev
  | providerCall (p : ProviderTag)
  | usageWrite (r : UsageRec)
deriving DecidableEq

/-- The provider-call outcomes available to one request, one per adapter
(each adapter performs at most one call). -/
structure Oracles where
  openai : OpenAiHttp
  claude : ClaudeHttp
  gemini : GeminiHttp
deriving DecidableEq

/-- lib/models.ts `routeModelRequest`: chooses the adapter by testing, in
order, `model.startsWith(p) || model.includes(p)` for `gpt`, `claude`,
`gemini`, and throws `Unsupported model: <id>` when none matches.  The
second component records the provider call the chosen branch performs (the
unsupported branch performs none).  The catch block of the source rethrows
the error unchanged, so it is the identity here. -/
def routeModelRequest (o : Oracles) (req : ModelRequest) :
    Except String ModelResponse × List Ev :=
  if strStarts req.model "gpt" || strIncludes req.model "gpt" then
    (callOpenAI req.model req.prompt req.mode o.openai, [Ev.providerCall .openai])
  else if strStarts req.model "claude" || strIncludes req.model "claude" then
    (callClaude req.model req.prompt req.mode o.claude, [Ev.providerCall .anthropic])
  else if strStarts req.model "gemini" || strIncludes req.model "gemini" then
    (callGemini req.model req.prompt req.mode o.gemini, [Ev.providerCall .gemini])
  else
    (.error ("Unsupported model: " ++ req.model), [])

/-- Modelled from the spec (sections 4.6 and 6), not from the source: the
claimed resolution rule, keying off the namespace piece of the model id
before the first slash (`openai/...`, `anthropic/...`, `google/...`). -/
def specProviderOfNamespace (model : String) : Option ProviderTag :=
  match jsSplitHead model '/' with
  | "openai" => some .openai
  | "anthropic" => some .anthropic
  | "google" => some .gemini
  | _ => none

/-! ## Chat endpoint (api/chat.ts) -/

/-- The context object of the chat request body, as far as the handler
reads it: `estimateTokenUsage` appends `JSON.stringify(context.selectedFrames)`
and `JSON.stringify(context.projectContext)` when those fields are present;
the fields are carried here as their stringified images.  (`JSON.stringify`
of a present value is a nonempty string, hence truthy.) -/
structure ChatCtx where
  selectedFrames : Option String
  projectContext : Option String
deriving DecidableEq

/-- The POST /chat request body.  `mode` is optional with destructuring
default "ask". -/
structure ChatBody where
  userId : String
  model : String
  prompt : String
  mode : Option String
  context : Option ChatCtx
deriving DecidableEq

/-- api/chat.ts `estimateTokenUsage`: concatenation of the prompt and the
stringified context fields, then `Math.ceil((totalText.length / 4) * 1.5)`
(equal to `⌈3L/8⌉`, see `ceilDiv_three_eighths`). -/
def estimateText (prompt : String) (context : Option ChatCtx) : String :=
  let totalText := prompt
  let totalText :=
    match context.bind (fun c => c.selectedFrames) with
    | some s => totalText ++ s
    | none => totalText
  match context.bind (fun c => c.projectContext) with
  | some s => totalText ++ s
  | none => totalText

/-- api/chat.ts `estimateTokenUsage` (see `estimateText`). -/
def estimateTokenUsage (prompt : String) (context : Option ChatCtx) : Nat :=
  ceilDiv (3 * (estimateText prompt context).length) 8

/-- api/chat.ts `getRequiredPlan`: tests whether the model id contains the
piece of each catalog entry before the first dash (`m.split('-')[0]`),
first against the beast list, then the max list. -/
def getRequiredPlan (model : String) : String :=
  let beastModels := ["claude-4.1-opus", "gemini-2.5-pro", "gpt-4o"]
  let maxModels := ["claude-3.5-sonnet", "gpt-4-turbo", "claude-4-sonnet"]
  if beastModels.any (fun m => strIncludes model (jsSplitHead m '-')) then
    "BEAST"
  else if maxModels.any (fun m => strIncludes model (jsSplitHead m '-')) then
    "MAX"
  else
    "BASIC"

example : estimateTokenUsage "abcd" none = 2 := by decide
example : getRequiredPlan "claude-3.5-sonnet" = "BEAST" := by decide

/-- The JSON bodies the chat handler can respond with, one constructor per
response site of api/chat.ts.  The 500 body includes internal detail only
in a development-mode diagnostic path, which is not modelled. -/
inductive RespBody
  | missingFields (error : String)
  | userNotFound (error : String)
  | planRequired (error requiredPlan currentPlan : String)
  | quotaExceeded (error suggestion : String)
  | success (result model : String) (tokenUsage : Nat) (cost : ℚ) (mode : String)
  | svcUnavailable (error details : String)
  | internalError (error : String)
deriving DecidableEq

/-- Result of one handled chat request: HTTP status, response body, the
database after the request, and the trace of observable side effects in
the order they were performed. -/
structure Outcome where
  status : Nat
  body : RespBody
  db : Db
  events : List Ev
deriving DecidableEq

/-- The world one chat request executes against: database state, the
ledger clock (`monthStart` is the first of the current month, `now` the
insertion timestamp), the provider-call outcomes, and whether the one
fallible write (the usage-ledger `INSERT`) fails and with which error
message (`none` means the append succeeds).  Database reads are modelled
as total. -/
structure Env where
  db : Db
  monthStart : Nat
  now : Nat
  oracles : Oracles
  ledgerError : Option String
deriving DecidableEq

/-- The `ModelRequest` the handler builds for `routeModelRequest`. -/
def chatReq (body : ChatBody) : ModelRequest :=
  { model := body.model, prompt := body.prompt, mode := body.mode.getD "ask" }

/-- The catch-all of api/chat.ts: a thrown error whose message contains
`API Error` becomes `502 AI service temporarily unavailable` with the
message as detail; anything else becomes `500 Internal server error`. -/
def catchAll (db : Db) (evs : List Ev) (e : String) : Outcome :=
  if strIncludes e "API Error" then
    { status := 502, body := .svcUnavailable "AI service temporarily unavailable" e,
      db := db, events := evs }
  else
    { status := 500, body := .internalError "Internal server error",
      db := db, events := evs }

/-- The api/chat.ts POST handler: validate fields (JS falsiness of a
string field is emptiness), look up the user (404), check the plan rules
(403), estimate and check the quota (429), dispatch to the routed
provider, append the usage row, and only then respond 200.  Any error
thrown by the dispatch or by the ledger append lands in the catch-all. -/
def chatHandler (env : Env) (body : ChatBody) : Outcome :=
  let mode := body.mode.getD "ask"
  if body.userId == "" || body.model == "" || body.prompt == "" then
    { status := 400,
      body := .missingFields "Missing required fields: userId, model, prompt",
      db := env.db, events := [] }
  else
    match getUserById env.db body.userId with
    | none =>
      { status := 404, body := .userNotFound "User not found",
        db := env.db, events := [] }
    | some _user =>
      let userPlan := getUserPlan env.db body.userId
      if !(isModelAllowed userPlan body.model) then
        { status := 403,
          body := .planRequired "Plan upgrade required for this model"
            (getRequiredPlan body.model) userPlan,
          db := env.db, events := [] }
      else
        let estimatedTokens := estimateTokenUsage body.prompt body.context
        if !(canUserMakeRequest env.db env.monthStart body.userId estimatedTokens) then
          { status := 429,
            body := .quotaExceeded "Token limit exceeded for current plan"
              "Upgrade your plan or wait for next billing cycle",
            db := env.db, events := [] }
        else
          match routeModelRequest env.oracles (chatReq body) with
          | (.error e, evs) => catchAll env.db evs e
          | (.ok mr, evs) =>
            match env.ledgerError with
            | some e => catchAll env.db evs e
            | none =>
              { status := 200,
                body := .success mr.text mr.model mr.tokenUsage mr.cost mode,
                db := logTokenUsage env.db env.now body.userId body.model
                  mr.tokenUsage mr.cost mode,
                events := evs ++ [Ev.usageWrite
                  ⟨body.userId, body.model, mr.tokenUsage, mr.cost, mode, env.now⟩] }

/-! ## Sample fixtures used by the concrete witnesses -/

/-- A database with one BASIC-plan user and an empty ledger. -/
def dbSample : Db := { users := [⟨"u1", Plan.BASIC⟩], ledger := [] }

/-- Provider outcomes where every adapter would succeed. -/
def oraclesOk : Oracles :=
  { openai := .ok (some "openai says hi") (some 10),
    claude := .ok (some "claude says hi") 5 7,
    gemini := .resp true 200 "OK" (some "gemini says hi") }

/-- A healthy environment around `dbSample`. -/
def envOk : Env :=
  { db := dbSample, monthStart := 0, now := 1, oracles := oraclesOk, ledgerError := none }

/-- A valid BASIC-tier chat request. -/
def bodyOk : ChatBody :=
  { userId := "u1", model := "claude-3.7-sonnet", prompt := "hello", mode := none,
    context := none }

example : (chatHandler envOk bodyOk).status = 200 := by decide
example : (chatHandler envOk { bodyOk with model := "gpt-4o" }).status = 403 := by decide
example : (chatHandler envOk { bodyOk with userId := "nobody" }).status = 404 := by decide
example : (chatHandler envOk { bodyOk with prompt := "" }).status = 400 := by decide
example :
    (chatHandler { envOk with ledgerError := some "connection refused" } bodyOk).status =
      500 := by decide
example :
    (chatHandler { envOk with oracles := { oraclesOk with claude := .netError "boom" } }
      bodyOk).status = 502 := by decide

/-! ## Helper lemmas -/

theorem listStarts_listHasSub (p s : List Char) (h : listStarts s p = true) :
    listHasSub p s = true := by
  cases s with
  | nil => simpa [listHasSub] using h
  | cons a t => simp [listHasSub, h]

/-- JS `startsWith` implies `includes`, so the routing conditions
`model.startsWith(p) || model.includes(p)` collapse to `model.includes(p)`. -/
theorem starts_or_includes (s pat : String) :
    (strStarts s pat || strIncludes s pat) = strIncludes s pat := by
  cases hs : strStarts s pat
  · rfl
  · simp [strIncludes, listStarts_listHasSub _ _ hs]

theorem routeModelRequest_no_usageWrite (o : Oracles) (req : ModelRequest) (r : UsageRec) :
    Ev.usageWrite r ∉ (routeModelRequest o req).2 := by
  unfold routeModelRequest
  split_ifs <;> simp

theorem routeModelRequest_ok_events (o : Oracles) (req : ModelRequest) (mr : ModelResponse)
    (h : (routeModelRequest o req).1 = Except.ok mr) :
    ∃ p, (routeModelRequest o req).2 = [Ev.providerCall p] := by
  unfold routeModelRequest at h ⊢
  split_ifs <;> first | exact ⟨_, rfl⟩ | simp_all

/-! ## Claim theorems -/

/-- Claim C5: for every model id and token count, `calculateCost` is the
linear tariff `(tokens / 1000) * ratePerThousand(model)` over the static
rate table with default rate 0.01 for unknown ids; it is total, never
negative, zero at zero tokens, and additive (hence linear) in the token
count. -/
theorem calculateCost_spec (model : String) (t a b : Nat) :
    calculateCost model t = ((t : ℚ) / 1000) * costPer1k model ∧
    (model ∉ rateTableKeys → costPer1k model = 0.01) ∧
    0 ≤ calculateCost model t ∧
    calculateCost model 0 = 0 ∧
    calculateCost model (a + b) = calculateCost model a + calculateCost model b := by
  have hrate : 0 ≤ costPer1k model := by
    unfold costPer1k
    split <;> norm_num
  refine ⟨rfl, ?_, ?_, ?_, ?_⟩
  · intro h
    unfold costPer1k
    split <;> simp_all [rateTableKeys]
  · exact mul_nonneg (by positivity) hrate
  · unfold calculateCost
    norm_num
  · unfold calculateCost
    push_cast
    ring

/-- Witness for C5 at a concrete unknown model id. -/
theorem calculateCost_spec_witness : costPer1k "mystery-model" = 0.01 :=
  (calculateCost_spec "mystery-model" 1 2 3).2.1 (by decide)

/-- Claim C3 (refuted; the code contradicts the cumulative-tier documentation):
`gpt-3.5-turbo` and `claude-3-haiku-20240307` are granted at BASIC but are
absent from both the MAX and the BEAST allowed lists. -/
theorem tier_monotonicity_failure :
    isModelAllowed "BASIC" "gpt-3.5-turbo" = true ∧
    isModelAllowed "MAX" "gpt-3.5-turbo" = false ∧
    isModelAllowed "BEAST" "gpt-3.5-turbo" = false ∧
    isModelAllowed "BASIC" "claude-3-haiku-20240307" = true ∧
    isModelAllowed "MAX" "claude-3-haiku-20240307" = false ∧
    isModelAllowed "BEAST" "claude-3-haiku-20240307" = false := by decide

/-- Claim C4 as stated is false: an unknown tier is not treated as the
lowest tier, because BASIC grants models while an unknown tier grants
nothing (`ULTIMATE` is the tier name a later revision would add). -/
theorem unknown_tier_ne_basic_cex :
    isModelAllowed "ULTIMATE" "gpt-4.1" = false ∧
    isModelAllowed "BASIC" "gpt-4.1" = true := by decide

/-- Claim C4 (amended): an unrecognized tier is treated as an empty
allowance: `isModelAllowed` returns false for every model, without
throwing; in particular an unknown tier never grants a model that the
lowest tier does not grant. -/
theorem unknown_tier_grants_nothing (plan model : String)
    (h1 : plan ≠ "BASIC") (h2 : plan ≠ "MAX") (h3 : plan ≠ "BEAST") :
    isModelAllowed plan model = false := by
  unfold isModelAllowed planRules
  split <;> simp_all

/-- Witness for C4 at a concrete unknown tier. -/
theorem unknown_tier_grants_nothing_witness :
    isModelAllowed "ULTIMATE" "gemini-2.5-pro" = false :=
  unknown_tier_grants_nothing "ULTIMATE" "gemini-2.5-pro"
    (by decide) (by decide) (by decide)

/-- Claim C10: every model id containing `gpt`, `claude` or `gemini` — that
is, every id the router dispatches at all — is mapped by `getRequiredPlan`
to BEAST, because the beast-list check reduces to exactly those three
substring tests; so a 403 body never names MAX or BASIC as the required
plan for a routable model. -/
theorem getRequiredPlan_routable_beast (model : String)
    (h : strIncludes model "gpt" = true ∨ strIncludes model "claude" = true ∨
      strIncludes model "gemini" = true) :
    getRequiredPlan model = "BEAST" := by
  have e1 : jsSplitHead "claude-4.1-opus" '-' = "claude" := rfl
  have e2 : jsSplitHead "gemini-2.5-pro" '-' = "gemini" := rfl
  have e3 : jsSplitHead "gpt-4o" '-' = "gpt" := rfl
  unfold getRequiredPlan
  simp only [List.any_cons, List.any_nil, e1, e2, e3, Bool.or_false]
  rcases h with h | h | h <;> simp [h]

/-- Witness for C10 at a concrete MAX-tier-granted model id. -/
theorem getRequiredPlan_routable_beast_witness :
    getRequiredPlan "claude-3.5-sonnet" = "BEAST" :=
  getRequiredPlan_routable_beast "claude-3.5-sonnet" (Or.inr (Or.inl (by decide)))

/-- Claim C6: every successful Gemini dispatch reports
`tokenUsage = ⌈(promptChars + responseChars) / 4⌉`, computed from the user
prompt length and the returned text length; the reported usage is a total
natural number (never null), and the billed cost prices exactly that
number. -/
theorem callGemini_token_estimate (model prompt mode : String) (o : GeminiHttp)
    (mr : ModelResponse) (h : callGemini model prompt mode o = Except.ok mr) :
    mr.tokenUsage = Nat.ceil (((prompt.length + mr.text.length : Nat) : ℚ) / 4) ∧
    mr.cost = calculateCost model mr.tokenUsage ∧
    mr.model = model := by
  cases o with
  | netError msg => simp [callGemini] at h
  | resp ok status statusText candidateText =>
    cases ok with
    | false => simp [callGemini] at h
    | true =>
      simp only [callGemini, Bool.not_true, Bool.false_eq_true, if_false,
        Except.ok.injEq] at h
      subst h
      exact ⟨ceilDiv_eq_natCeil _ 4 (by norm_num), rfl, rfl⟩

/-- The reply `callGemini` normalizes out of a successful sample exchange. -/
def geminiSampleResp : ModelResponse :=
  { text := "gemini says hi", tokenUsage := 4, model := "gemini-pro",
    cost := calculateCost "gemini-pro" 4 }

/-- Witness for C6 at a concrete successful exchange. -/
theorem callGemini_token_estimate_witness :
    callGemini "gemini-pro" "hi" "ask" (GeminiHttp.resp true 200 "OK" (some "gemini says hi")) =
      Except.ok geminiSampleResp ∧
    geminiSampleResp.tokenUsage =
      Nat.ceil ((((String.length "hi") + geminiSampleResp.text.length : Nat) : ℚ) / 4) :=
  ⟨rfl, (callGemini_token_estimate "gemini-pro" "hi" "ask"
    (GeminiHttp.resp true 200 "OK" (some "gemini says hi")) geminiSampleResp rfl).1⟩

/-- Claim C9 as stated is false: the router keys on substring containment,
not on the namespace piece before the slash.  The id `anthropic/gpt`
namespaces Anthropic but is dispatched to the OpenAI adapter, and the ids
the system actually uses carry no slash, so the claimed rule would resolve
none of them. -/
theorem route_not_by_namespace_cex :
    (routeModelRequest oraclesOk { model := "anthropic/gpt", prompt := "p", mode := "ask" }).2 =
      [Ev.providerCall ProviderTag.openai] ∧
    specProviderOfNamespace "anthropic/gpt" = some ProviderTag.anthropic ∧
    ProviderTag.openai ≠ ProviderTag.anthropic ∧
    (routeModelRequest oraclesOk { model := "gpt-4o", prompt := "p", mode := "ask" }).2 =
      [Ev.providerCall ProviderTag.openai] ∧
    specProviderOfNamespace "gpt-4o" = none := by decide

/-- Claim C9 (amended): the router tests the model id for the substrings
`gpt`, `claude`, `gemini` in that priority order (the `startsWith`
disjunct being subsumed by `includes`), dispatches to exactly the matching
adapter with exactly one provider call, and raises the single error
`Unsupported model: <id>` with no provider call when no substring matches. -/
theorem routeModelRequest_substring_dispatch (o : Oracles) (req : ModelRequest) :
    (strIncludes req.model "gpt" = true →
      routeModelRequest o req =
        (callOpenAI req.model req.prompt req.mode o.openai, [Ev.providerCall .openai])) ∧
    (strIncludes req.model "gpt" = false → strIncludes req.model "claude" = true →
      routeModelRequest o req =
        (callClaude req.model req.prompt req.mode o.claude, [Ev.providerCall .anthropic])) ∧
    (strIncludes req.model "gpt" = false → strIncludes req.model "claude" = false →
      strIncludes req.model "gemini" = true →
      routeModelRequest o req =
        (callGemini req.model req.prompt req.mode o.gemini, [Ev.providerCall .gemini])) ∧
    (strIncludes req.model "gpt" = false → strIncludes req.model "claude" = false →
      strIncludes req.model "gemini" = false →
      routeModelRequest o req = (.error ("Unsupported model: " ++ req.model), [])) := by
  unfold routeModelRequest
  simp only [starts_or_includes]
  refine ⟨fun h1 => by simp [h1], fun h1 h2 => by simp [h1, h2],
    fun h1 h2 h3 => by simp [h1, h2, h3], fun h1 h2 h3 => by simp [h1, h2, h3]⟩

/-- Witness for C9 at a concrete Anthropic-family id. -/
theorem routeModelRequest_substring_dispatch_witness :
    routeModelRequest oraclesOk { model := "claude-3.5-sonnet", prompt := "p", mode := "ask" } =
      (callClaude "claude-3.5-sonnet" "p" "ask" oraclesOk.claude,
        [Ev.providerCall ProviderTag.anthropic]) :=
  (routeModelRequest_substring_dispatch oraclesOk _).2.1 (by decide) (by decide)

/-- Modelled from the spec (section 4.5), not from the source: the claimed
pending-request estimate `ceil(promptChars / 4) * 1.5`, with the ceiling
taken before the multiplication. -/
def specAdmissionEstimate (promptChars : Nat) : ℚ :=
  ((Nat.ceil ((promptChars : ℚ) / 4) : Nat) : ℚ) * 1.5

/-- Claim C7 as stated is false: the code computes
`ceil((chars / 4) * 1.5)` with the ceiling outside the product, not
`ceil(chars / 4) * 1.5`.  On a 4-character prompt the code admits with
estimate 2 while the claimed formula yields 3/2. -/
theorem admission_estimate_formula_cex :
    specAdmissionEstimate (String.length "abcd") = 3 / 2 ∧
    ((estimateTokenUsage "abcd" none : Nat) : ℚ) = 2 ∧
    (3 / 2 : ℚ) ≠ 2 := by
  refine ⟨?_, ?_, by norm_num⟩
  · unfold specAdmissionEstimate
    have h4 : String.length "abcd" = 4 := rfl
    rw [h4, show ((4 : Nat) : ℚ) / 4 = 1 by norm_num, Nat.ceil_one]
    norm_num
  · have h : estimateTokenUsage "abcd" none = 2 := by decide
    rw [h]
    norm_num

/-- Claim C7 (amended): for an existing user the admission check holds iff
`monthlyUsage(userId).totalTokens + E ≤ quotaTokens(plan(user))`, where the
pending-request estimate is `E = ceil((totalChars / 4) * 1.5)` and
`totalChars` counts the prompt together with the stringified
`selectedFrames` and `projectContext` context fields when present. -/
theorem canUserMakeRequest_iff (db : Db) (monthStart : Nat) (uid : String)
    (u : UserRec) (n : Nat) (hu : getUserById db uid = some u) :
    (canUserMakeRequest db monthStart uid n = true ↔
      (getMonthlyTokenUsage db monthStart uid).1 + n ≤ planLimit u.plan) ∧
    (∀ prompt ctx, estimateTokenUsage prompt ctx =
      Nat.ceil ((((estimateText prompt ctx).length : ℚ) / 4) * 1.5)) := by
  constructor
  · unfold canUserMakeRequest
    rw [hu]
    simp
  · intro prompt ctx
    exact ceilDiv_three_eighths _

/-- Witness for C7 at the sample database. -/
theorem canUserMakeRequest_iff_witness :
    canUserMakeRequest dbSample 0 "u1" 5 = true ↔
      (getMonthlyTokenUsage dbSample 0 "u1").1 + 5 ≤
        planLimit (UserRec.mk "u1" Plan.BASIC).plan :=
  (canUserMakeRequest_iff dbSample 0 "u1" (UserRec.mk "u1" Plan.BASIC) 5 (by decide)).1

/-- Claim C8: a user whose current-month ledger total already equals the
plan quota has any chat request for an allowed model with a non-empty
prompt rejected with 429 carrying the error and the upgrade suggestion,
with the database unchanged (zero usage rows written) and an empty event
trace (zero provider calls made). -/
theorem quota_exhausted_rejected (env : Env) (body : ChatBody) (u : UserRec)
    (h1 : body.userId ≠ "") (h2 : body.model ≠ "") (h3 : body.prompt ≠ "")
    (hu : getUserById env.db body.userId = some u)
    (hallow : isModelAllowed (getUserPlan env.db body.userId) body.model = true)
    (hfull : (getMonthlyTokenUsage env.db env.monthStart body.userId).1 = planLimit u.plan) :
    (chatHandler env body).status = 429 ∧
    (chatHandler env body).body =
      .quotaExceeded "Token limit exceeded for current plan"
        "Upgrade your plan or wait for next billing cycle" ∧
    (chatHandler env body).db = env.db ∧
    (chatHandler env body).events = [] := by
  have hL : 1 ≤ body.prompt.length := by
    cases hp : body.prompt with
    | mk l =>
      cases l with
      | nil => exact absurd hp (by simpa using h3)
      | cons c cs => simp [String.length]
  have hL2 : body.prompt.length ≤ (estimateText body.prompt body.context).length := by
    unfold estimateText
    rcases body.context.bind (fun c => c.selectedFrames) with _ | s <;>
        rcases body.context.bind (fun c => c.projectContext) with _ | t <;>
        (simp [String.length_append]; try omega)
  have hest : 1 ≤ estimateTokenUsage body.prompt body.context := by
    unfold estimateTokenUsage ceilDiv
    omega
  have hcan : canUserMakeRequest env.db env.monthStart body.userId
      (estimateTokenUsage body.prompt body.context) = false := by
    unfold canUserMakeRequest
    rw [hu]
    simp only [decide_eq_false_iff_not, not_le]
    omega
  simp [chatHandler, h1, h2, h3, hu, hallow, hcan]

/-- A database in which the single BASIC user has exactly consumed the
BASIC monthly quota. -/
def dbFull : Db :=
  { users := [⟨"u1", Plan.BASIC⟩],
    ledger := [⟨"u1", "claude-3.7-sonnet", 50000, 0.125, "chat", 5⟩] }

/-- The healthy environment around `dbFull`. -/
def envFull : Env :=
  { db := dbFull, monthStart := 0, now := 9, oracles := oraclesOk, ledgerError := none }

/-- Witness for C8 at the quota-exhausted sample database. -/
theorem quota_exhausted_rejected_witness :
    (chatHandler envFull bodyOk).status = 429 :=
  (quota_exhausted_rejected envFull bodyOk (UserRec.mk "u1" Plan.BASIC)
    (by decide) (by decide) (by decide) (by decide) (by decide) (by decide)).1

/-- The environment in which the single fallible write, the usage-ledger
append, fails with a generic database error. -/
def envLedgerFail : Env := { envOk with ledgerError := some "connection refused" }

/-- The reply `callClaude` normalizes out of the `oraclesOk` exchange. -/
def claudeSampleResp : ModelResponse :=
  { text := "claude says hi", tokenUsage := 12, model := "claude-3.7-sonnet",
    cost := calculateCost "claude-3.7-sonnet" 12 }

/-- Claim C2 as stated is false: with a successful Claude dispatch but a
failing ledger append, the handler does not return the AI response; the
append error escapes to the catch-all and the caller receives
`500 Internal server error` with no usage row written. -/
theorem ledger_failure_not_tolerated_cex :
    (routeModelRequest envLedgerFail.oracles (chatReq bodyOk)).1 =
      Except.ok claudeSampleResp ∧
    (chatHandler envLedgerFail bodyOk).status = 500 ∧
    (chatHandler envLedgerFail bodyOk).body = .internalError "Internal server error" ∧
    (chatHandler envLedgerFail bodyOk).db = envLedgerFail.db :=
  ⟨rfl, by decide, by decide, by decide⟩

/-- Claim C2 (amended): when the provider dispatch succeeds but the
usage-ledger append fails, the handler converts the request into an error
response through its catch-all — 502 if the append error message happens
to contain `API Error`, otherwise 500 — never a 200; the AI response is
dropped, the database is unchanged and no usage-write event occurs. -/
theorem ledger_failure_propagates (env : Env) (body : ChatBody) (e : String)
    (u : UserRec) (mr : ModelResponse) (evs : List Ev)
    (h1 : body.userId ≠ "") (h2 : body.model ≠ "") (h3 : body.prompt ≠ "")
    (hu : getUserById env.db body.userId = some u)
    (hallow : isModelAllowed (getUserPlan env.db body.userId) body.model = true)
    (hquota : canUserMakeRequest env.db env.monthStart body.userId
      (estimateTokenUsage body.prompt body.context) = true)
    (hroute : routeModelRequest env.oracles (chatReq body) = (Except.ok mr, evs))
    (hledger : env.ledgerError = some e) :
    (chatHandler env body).status = (if strIncludes e "API Error" then 502 else 500) ∧
    (chatHandler env body).status ≠ 200 ∧
    (chatHandler env body).db = env.db ∧
    (∀ r, Ev.usageWrite r ∉ (chatHandler env body).events) := by
  have hout : chatHandler env body = catchAll env.db evs e := by
    simp [chatHandler, h1, h2, h3, hu, hallow, hquota, hroute, hledger]
  have hevs : ∀ r, Ev.usageWrite r ∉ evs := by
    intro r
    have := routeModelRequest_no_usageWrite env.oracles (chatReq body) r
    rw [hroute] at this
    exact this
  rw [hout]
  unfold catchAll
  split_ifs <;> simp_all

/-- Witness for C2: the concrete failing-append run returns 500. -/
theorem ledger_failure_propagates_witness :
    (chatHandler envLedgerFail bodyOk).status =
      (if strIncludes "connection refused" "API Error" then 502 else 500) :=
  (ledger_failure_propagates envLedgerFail bodyOk "connection refused"
    (UserRec.mk "u1" Plan.BASIC) claudeSampleResp [Ev.providerCall ProviderTag.anthropic]
    (by decide) (by decide) (by decide) (by decide) (by decide) (by decide) rfl rfl).1

/-- Claim C1: accounting discipline of the chat orchestrator.  A 200
response happens only on a trace that performed exactly one provider call
followed by exactly one usage write, with that row appended to the ledger;
a usage write happens only on a 200 run whose dispatch returned
successfully; every rejection (400, 404, 403, 429) performs no side effect
at all; and a failed dispatch never writes a usage record. -/
theorem chat_accounting_discipline (env : Env) (body : ChatBody) :
    ((chatHandler env body).status = 200 →
      ∃ p r mr, (routeModelRequest env.oracles (chatReq body)).1 = Except.ok mr ∧
        (chatHandler env body).events = [Ev.providerCall p, Ev.usageWrite r] ∧
        (chatHandler env body).db.ledger = env.db.ledger ++ [r]) ∧
    (∀ r, Ev.usageWrite r ∈ (chatHandler env body).events →
      (chatHandler env body).status = 200 ∧
      ∃ mr, (routeModelRequest env.oracles (chatReq body)).1 = Except.ok mr) ∧
    ((chatHandler env body).status = 400 ∨ (chatHandler env body).status = 404 ∨
        (chatHandler env body).status = 403 ∨ (chatHandler env body).status = 429 →
      (chatHandler env body).events = [] ∧ (chatHandler env body).db = env.db) ∧
    (∀ e, (routeModelRequest env.oracles (chatReq body)).1 = Except.error e →
      (∀ r, Ev.usageWrite r ∉ (chatHandler env body).events) ∧
      (chatHandler env body).db = env.db) := by
  cases hv : (body.userId == "" || body.model == "" || body.prompt == "") with
  | true => simp [chatHandler, hv]
  | false =>
    cases hu : getUserById env.db body.userId with
    | none => simp [chatHandler, hv, hu]
    | some u =>
      cases ha : isModelAllowed (getUserPlan env.db body.userId) body.model with
      | false => simp [chatHandler, hv, hu, ha]
      | true =>
        cases hq : canUserMakeRequest env.db env.monthStart body.userId
            (estimateTokenUsage body.prompt body.context) with
        | false => simp [chatHandler, hv, hu, ha, hq]
        | true =>
          have hnw := routeModelRequest_no_usageWrite env.oracles (chatReq body)
          rcases hroute : routeModelRequest env.oracles (chatReq body) with ⟨res, evs⟩
          rw [hroute] at hnw
          cases res with
          | error e =>
            simp only [chatHandler, hv, hu, ha, hq, hroute, Bool.not_true,
              Bool.false_eq_true, if_false, Bool.not_false, if_true]
            unfold catchAll
            split_ifs <;>
              refine ⟨by simp, fun r hr => absurd hr (hnw r), by simp, fun e he => ⟨hnw, rfl⟩⟩
          | ok mr =>
            obtain ⟨p, hevs⟩ :=
              routeModelRequest_ok_events env.oracles (chatReq body) mr (by rw [hroute])
            rw [hroute] at hevs
            simp only at hevs
            subst hevs
            cases hl : env.ledgerError with
            | some e =>
              simp only [chatHandler, hv, hu, ha, hq, hroute, hl, Bool.not_true,
                Bool.false_eq_true, if_false, Bool.not_false, if_true]
              unfold catchAll
              split_ifs <;>
                refine ⟨by simp, fun r hr => absurd hr (hnw r), by simp,
                  fun e he => by simp at he⟩
            | none =>
              simp only [chatHandler, hv, hu, ha, hq, hroute, hl, Bool.not_true,
                Bool.false_eq_true, if_false, Bool.not_false, if_true, logTokenUsage]
              exact ⟨fun _ => ⟨p, _, mr, rfl, rfl, rfl⟩,
                fun r hr => ⟨trivial, mr, rfl⟩,
                by simp, fun e he => by simp at he⟩

/-- Witness for C1: a concrete 403 rejection performs no side effect. -/
theorem chat_accounting_discipline_witness :
    (chatHandler envOk { bodyOk with model := "gpt-4o" }).events = [] ∧
    (chatHandler envOk { bodyOk with model := "gpt-4o" }).db = envOk.db :=
  (chat_accounting_discipline envOk { bodyOk with model := "gpt-4o" }).2.2.1
    (Or.inr (Or.inr (Or.inl (by decide))))

end Framium
